import Mathlib

/-!
Verification of the Zentrafuge v9 memory and safety subsystems against their
natural-language specification.  Definitions in this file are shallow
embeddings of the Python sources:

* `src/backend/orchestrator.py` — `EnhancedSafetyMonitor.assess_safety`,
  `EmotionTracker.get_emotional_summary`,
* `src/backend/crypto_handler.py` — `encrypt_data` / `decrypt_data`,
* `src/backend/memory/micro_memory.py` — decay, retrieval, cleanup,
* `src/backend/memory/memory_consolidator.py` — consolidation,
* `src/backend/memory/memory_manager.py` — `get_context_for_prompt`,
* `src/backend/memory/persistent_facts.py` — `set_fact` / `get_fact`.

Python strings are modelled as `List Char`, floats as `ℚ` where the code
only adds and compares literals, and as `ℝ` where the code calls
`math.pow` with a real exponent.  The substring operator `kw in text` is
modelled by `List.IsInfix` on the character lists.
-/

/-- `RiskLevel` enum from orchestrator.py (values none, low, medium, high,
critical, ordered by severity). -/
inductive RiskLevel where
  | none
  | low
  | medium
  | high
  | critical
deriving DecidableEq, Repr

/-- Numeric severity of a risk level: none < low < medium < high < critical. -/
def RiskLevel.toNat : RiskLevel → Nat
  | .none => 0
  | .low => 1
  | .medium => 2
  | .high => 3
  | .critical => 4

/-- `InterventionType` enum from orchestrator.py. -/
inductive InterventionType where
  | none
  | gentle_check_in
  | direct_concern
  | crisis_response
  | emergency_resources
deriving DecidableEq, Repr

/-- CRITICAL keyword tier of `EnhancedSafetyMonitor` (orchestrator.py). -/
def critical_keywords : List String :=
  ["kill myself", "end my life", "suicide", "want to die",
   "going to kill myself", "plan to die", "planning to die",
   "going to end it", "end it all tonight", "end it all today",
   "snuff myself", "do myself in", "top myself", "off myself",
   "end it", "finish it", "done with life",
   "jump off", "overdose", "pills and", "cut my wrists",
   "hang myself", "hanging myself",
   "goodbye forever", "last time", "won\x27t be here tomorrow",
   "this is it", "final message", "saying goodbye"]

/-- HIGH RISK keyword tier of `EnhancedSafetyMonitor` (orchestrator.py).
Note: the two phrases written with a capital I in the source are kept
verbatim; the assessed text is lowercased, so they can never match. -/
def high_risk_keywords : List String :=
  ["don\x27t want to live", "can\x27t go on", "no reason to live",
   "better off dead", "world better without me",
   "shouldn\x27t be here", "wish I was dead", "wish I wasn\x27t here",
   "don\x27t want to be here anymore", "can\x27t do this anymore",
   "too much to bear", "can\x27t take it anymore",
   "rather be dead", "had enough of life", "done with it all",
   "can\x27t cope", "end of my tether", "at the end",
   "burden on everyone", "burden to", "everyone better off",
   "tired of being a burden", "they\x27d be better without me"]

/-- MEDIUM RISK keyword tier of `EnhancedSafetyMonitor` (orchestrator.py). -/
def medium_risk_keywords : List String :=
  ["hurt myself", "harm myself", "cut myself", "cutting myself",
   "burn myself", "punish myself", "self harm", "self-harm",
   "hate myself", "worthless", "piece of shit", "waste of space",
   "hopeless", "no hope", "give up", "giving up",
   "pointless", "no point", "what\x27s the point",
   "can\x27t see a way out", "trapped", "no escape", "no future",
   "nothing left", "empty inside", "numb", "dead inside"]

/-- LOW RISK (ideation) keyword tier of `EnhancedSafetyMonitor`. -/
def ideation_keywords : List String :=
  ["wish i was dead", "wish i wasn\x27t here", "shouldn\x27t exist",
   "world better without me", "disappear", "fade away",
   "stop existing", "not be here", "be gone"]

/-- Context-multiplier categories of `EnhancedSafetyMonitor`, in the
insertion order of the Python dict. -/
def risk_multipliers : List (String × List String) :=
  [("substances", ["drunk", "drinking", "high", "pills", "alcohol", "drugs"]),
   ("isolation", ["alone", "no one", "nobody", "by myself", "isolated"]),
   ("finality", ["goodbye", "last", "final", "forever", "never again"]),
   ("means", ["gun", "pills", "bridge", "rope", "blade", "knife"])]

/-- Python substring test `kw in text` on a lowercased text. -/
def pyIn (kw : String) (text : List Char) : Bool :=
  decide (kw.toList <:+: text)

/-- Mutable assessment state threaded through the phases of
`assess_safety`: risk level, running score, concerns and triggers. -/
structure AssessSt where
  level : RiskLevel
  score : ℚ
  concerns : List String
  triggers : List String
deriving DecidableEq, Repr

/-- Phase 1 of `assess_safety`: direct keyword matching, one tier after
another (critical, high, medium, low/ideation); the first match inside a
tier breaks out of its loop, and a lower tier is scanned only when no
higher tier matched. -/
def phase1 (text : List Char) : AssessSt :=
  match critical_keywords.find? (fun kw => pyIn kw text) with
  | some kw => ⟨.critical, 10, ["immediate_suicide_risk"], ["critical: " ++ kw]⟩
  | Option.none =>
    match high_risk_keywords.find? (fun kw => pyIn kw text) with
    | some kw => ⟨.high, 7, ["high_suicide_risk"], ["high: " ++ kw]⟩
    | Option.none =>
      match medium_risk_keywords.find? (fun kw => pyIn kw text) with
      | some kw => ⟨.medium, 5, ["self_harm_risk"], ["medium: " ++ kw]⟩
      | Option.none =>
        match ideation_keywords.find? (fun kw => pyIn kw text) with
        | some kw => ⟨.low, 3, ["suicidal_ideation"], ["ideation: " ++ kw]⟩
        | Option.none => ⟨.none, 0, [], []⟩

/-- One iteration of the phase-2 loop of `assess_safety`: if any keyword
of the multiplier category occurs in the text, record the category, add
2.0 to the score and escalate medium to high or high to critical. -/
def phase2_step (text : List Char) (acc : AssessSt × Bool)
    (cat : String × List String) : AssessSt × Bool :=
  if (cat.2).any (fun kw => pyIn kw text) then
    ({ acc.1 with
        triggers := acc.1.triggers ++ ["multiplier: " ++ cat.1]
        score := acc.1.score + 2
        level :=
          if acc.1.level = .medium then .high
          else if acc.1.level = .high then .critical
          else acc.1.level },
      true)
  else acc

/-- Phase 2 of `assess_safety`: context multipliers, folded over the four
categories in dict order; the second component is `multiplier_found`. -/
def phase2 (text : List Char) (st : AssessSt) : AssessSt × Bool :=
  risk_multipliers.foldl (phase2_step text) (st, false)

/-- Phase 3 of `assess_safety`: emotional-intensity amplification.
Intensity above 0.8 adds to the score and escalates medium to high;
intensity above 0.9 escalates high to critical. -/
def phase3 (intensity : ℚ) (st : AssessSt) : AssessSt :=
  if (0.8 : ℚ) < intensity then
    let st1 := { st with
      score := st.score + 2
      triggers := st.triggers ++ ["high_emotional_intensity"] }
    if st1.level = .medium then { st1 with level := .high }
    else if st1.level = .high ∧ (0.9 : ℚ) < intensity then
      { st1 with level := .critical }
    else st1
  else st

/-- Phase 4 of `assess_safety`: pattern detection from the emotional
history (each entry is the optional "state" field of a snapshot).  With
at least three entries, two "depressed" states among the last three add a
concern and escalate medium to high; an anxious-to-depressed shift adds
1.0 to the score. -/
def phase4 (history : List (Option String)) (st : AssessSt) : AssessSt :=
  if 3 ≤ history.length then
    let recent_states := history.drop (history.length - 3)
    let st1 :=
      if 2 ≤ recent_states.count (some "depressed") then
        let st' := { st with
          concerns := st.concerns ++ ["persistent_depression_pattern"]
          triggers := st.triggers ++ ["pattern: persistent depression"] }
        if st'.level = .medium then { st' with level := .high } else st'
      else st
    if (recent_states.take 2).contains (some "anxious") ∧
        recent_states.getLast? = some (some "depressed") then
      { st1 with
        triggers := st1.triggers ++ ["pattern: anxiety to depression shift"]
        score := st1.score + 1 }
    else st1
  else st

/-- `_select_intervention_type` from orchestrator.py. -/
def select_intervention_type (level : RiskLevel) (has_multipliers : Bool) :
    InterventionType :=
  match level with
  | .critical => .emergency_resources
  | .high => if has_multipliers then .emergency_resources else .crisis_response
  | .medium => .direct_concern
  | .low => .gentle_check_in
  | .none => .none

/-- The safety assessment returned by `assess_safety`.  Fields that the
fail-safe `except` branch of the source does not populate are `Option`s
and set to `none` there. -/
structure SafetyAssessment where
  risk_level : RiskLevel
  risk_score : Option ℚ
  safety_concerns : List String
  specific_triggers : Option (List String)
  intervention_type : InterventionType
  requires_intervention : Bool
  requires_followup : Bool
  emergency_contact_suggested : Bool
  emotional_intensity : Option ℚ
  context_multipliers_present : Option Bool
  error : Option String
deriving DecidableEq, Repr

/-- The `try` body of `assess_safety` (orchestrator.py): lowercase the
message, run the four phases, select the intervention and assemble the
assessment dict. -/
def assess_safety_body (message : List Char) (intensity : ℚ)
    (history : List (Option String)) : SafetyAssessment :=
  let text := message.map Char.toLower
  let st1 := phase1 text
  let p2 := phase2 text st1
  let st3 := phase3 intensity p2.1
  let st4 := phase4 history st3
  { risk_level := st4.level
    risk_score := some st4.score
    safety_concerns := st4.concerns
    specific_triggers := some st4.triggers
    intervention_type := select_intervention_type st4.level p2.2
    requires_intervention := st4.level == .critical || st4.level == .high
    requires_followup := st4.level == .medium || st4.level == .low
    emergency_contact_suggested := st4.level == .critical
    emotional_intensity := some intensity
    context_multipliers_present := some p2.2
    error := Option.none }

/-- The `except` branch of `assess_safety`: fail safe, assume risk. -/
def fail_safe_assessment (e : String) : SafetyAssessment :=
  { risk_level := .high
    risk_score := Option.none
    safety_concerns := ["assessment_error"]
    specific_triggers := Option.none
    intervention_type := .crisis_response
    requires_intervention := true
    requires_followup := true
    emergency_contact_suggested := true
    emotional_intensity := Option.none
    context_multipliers_present := Option.none
    error := some e }

/-- The `try`/`except` wrapper of `assess_safety`: a raised exception in
the assessment computation is caught and replaced by the fail-safe
assessment; the exception is never propagated. -/
def assess_safety_wrapped (body : Except String SafetyAssessment) :
    SafetyAssessment :=
  match body with
  | .ok a => a
  | .error e => fail_safe_assessment e

/-- `EnhancedSafetyMonitor.assess_safety` on the non-raising path. -/
def assess_safety (message : List Char) (intensity : ℚ)
    (history : List (Option String)) : SafetyAssessment :=
  assess_safety_wrapped (.ok (assess_safety_body message intensity history))

/-!
## Crypto layer (crypto_handler.py)

`encrypt_data` utf8-encodes, Fernet-encrypts and base64-encodes; the
byte-level primitives (Fernet, base64, utf8) are external collaborators
per the spec.  Their composition is modelled as an injective tagging: a
Fernet token rendered in urlsafe base64 always begins with the fixed
prefix below, and decryption rejects any string that is not of that
shape.  `decrypt_data` re-raises on failure (modelled with `Except`).
-/

/-- The fixed leading characters of a base64-rendered Fernet token
(version byte 0x80). -/
def fernet_b64_tag : List Char := "gAAAAA".toList

/-- Modelled from the spec: the external cipher capability
`encrypt(plain)->cipher` used by `MemoryEncryption.encrypt_data`
(crypto_handler.py lines 77-100); composition of utf8 encoding, Fernet
encryption and urlsafe base64 encoding, modelled as prefix tagging. -/
def encrypt_data (data : List Char) : List Char :=
  fernet_b64_tag ++ data

/-- Modelled from the spec: the external `decrypt(cipher)->plain`
capability used by `MemoryEncryption.decrypt_data` (crypto_handler.py
lines 102-125); raises (here: `Except.error`) on any input that is not a
well-formed ciphertext, as the source method re-raises after logging. -/
def decrypt_data (encrypted_data : List Char) : Except String (List Char) :=
  if fernet_b64_tag.isPrefixOf encrypted_data then
    .ok (encrypted_data.drop fernet_b64_tag.length)
  else
    .error "InvalidToken"

/-- Modelled from the spec: module-level `encrypt_text` of
crypto_handler.py, imported by micro_memory.py and
memory_consolidator.py but not present under src/; it encrypts via
`encrypt_data`. -/
def encrypt_text (x : List Char) : List Char :=
  encrypt_data x

/-- Modelled from the spec: module-level `decrypt_text` of
crypto_handler.py, imported by micro_memory.py and
memory_consolidator.py but not present under src/.  Per the spec it must
"tolerate non-ciphertext input by returning it unchanged (treated as
legacy plaintext) rather than raising": try `decrypt_data`, and on any
exception fall back to the original input. -/
def decrypt_text (y : List Char) : List Char :=
  match decrypt_data y with
  | .ok plain => plain
  | .error _ => y

/-!
## Persistent facts (persistent_facts.py)

The per-user facts document is a nested dict
`category -> key -> {value, source, created_at, last_updated}`.  Python
dicts are modelled as association lists preserving insertion order.
-/

/-- One stored fact with its metadata (persistent_facts.py `set_fact`). -/
structure FactEntry (α : Type) where
  value : α
  source : String
  created_at : ℚ
  last_updated : ℚ
deriving DecidableEq, Repr

/-- Lookup in a Python dict modelled as an association list. -/
def alist_get {β : Type} : List (String × β) → String → Option β
  | [], _ => Option.none
  | p :: rest, k => if p.1 = k then some p.2 else alist_get rest k

/-- Update/insert in a Python dict modelled as an association list:
an existing key keeps its position, a new key is appended. -/
def alist_set {β : Type} : List (String × β) → String → β → List (String × β)
  | [], k, v => [(k, v)]
  | p :: rest, k, v =>
    if p.1 = k then (k, v) :: rest else p :: alist_set rest k v

/-- The in-memory `self.facts` map of `PersistentFacts`. -/
abbrev FactsMap (α : Type) : Type :=
  List (String × List (String × FactEntry α))

/-- `PersistentFacts.set_fact` (persistent_facts.py lines 53-87): create
the category if missing, overwrite the fact in the in-memory map, then
attempt the Firestore save (`_save_facts`, which re-raises on failure).
The save outcome is the explicit argument `saveOk`; when the save raises,
the `except` branch returns `False` but the in-memory update is not
rolled back.  Returns the new map and the success flag. -/
def set_fact {α : Type} (facts : FactsMap α) (category key : String)
    (value : α) (source : String) (now : ℚ) (saveOk : Bool) :
    FactsMap α × Bool :=
  let inner := (alist_get facts category).getD []
  let facts' := alist_set facts category
    (alist_set inner key ⟨value, source, now, now⟩)
  (facts', saveOk)

/-- `PersistentFacts.get_fact` (persistent_facts.py lines 89-106): return
the stored value when category and key are present, else `None`. -/
def get_fact {α : Type} (facts : FactsMap α) (category key : String) :
    Option α :=
  match alist_get facts category with
  | some inner => (alist_get inner key).map (fun e => e.value)
  | Option.none => Option.none

/-!
## Emotion tracker summary (orchestrator.py, EmotionTracker)
-/

/-- One recorded emotion snapshot (fields used by
`get_emotional_summary`). -/
structure EmotionSnap where
  primary_emotion : String
  intensity : ℚ
  state : Option String
deriving DecidableEq, Repr

/-- Python slice `l[-k:]`: the last `k` elements (all of them when the
list is shorter). -/
def lastN {α : Type} (k : ℕ) (l : List α) : List α :=
  l.drop (l.length - k)

/-- The trend computation inside `EmotionTracker.get_emotional_summary`
(orchestrator.py lines 1801-1832), applied to the intensities of the
last-10 window: with at least 5 window samples, compare the mean of the
last 3 against `sum(intensities[-6:-3]) / 3` with a 0.2 band; otherwise
the trend is "emerging".  Python slice `[-6:-3]` is
`(take (n-3)).drop (n-6)` with truncated subtraction. -/
def emotional_trend (intensities : List ℚ) : String :=
  if 5 ≤ intensities.length then
    let recent_avg := (lastN 3 intensities).sum / 3
    let earlier_avg :=
      ((intensities.take (intensities.length - 3)).drop
        (intensities.length - 6)).sum / 3
    if earlier_avg + 0.2 < recent_avg then "intensifying"
    else if recent_avg < earlier_avg - 0.2 then "calming"
    else "stable"
  else "emerging"

/-- `EmotionTracker.get_emotional_summary`: returns the empty summary
(modelled as `none`) with fewer than 3 recorded snapshots; otherwise the
average intensity over the last-10 window together with the trend
classification.  (The dominant-emotion text of the formatted summary is
elided; its tie-breaking depends on Python set iteration order.) -/
def get_emotional_summary (history : List EmotionSnap) :
    Option (ℚ × String) :=
  if history.length < 3 then Option.none
  else
    let recent := lastN 10 history
    let intensities := recent.map (fun e => e.intensity)
    let avg_intensity := intensities.sum / intensities.length
    some (avg_intensity, emotional_trend intensities)

/-!
## Micro memories (micro_memory.py)

A stored MicroMemory record, restricted to the plaintext metadata fields
that drive decay, retrieval, consolidation and cleanup.  Timestamps are
rational numbers measured in days (ISO-8601 strings compare
lexicographically exactly as these numbers compare); queries take the
current time `now` explicitly.
-/

/-- One MicroMemory document (metadata fields). -/
structure MicroRec where
  id : ℕ
  importance : ℚ
  created_at : ℚ
  consolidated : Bool
  consolidated_at : Option ℚ
deriving DecidableEq, Repr

/-- `MicroMemory.HALF_LIFE_DAYS`. -/
def HALF_LIFE_DAYS : ℝ := 14

/-- `MicroMemory.MIN_IMPORTANCE` ("Minimum importance before deletion"). -/
def MIN_IMPORTANCE : ℝ := 1.0

/-- `MicroMemory._calculate_decayed_importance` (micro_memory.py lines
234-264) on its numeric core: elapsed days are computed from the stored
timestamp, then `I(t) = max(I0 * 0.5 ** (t / 14), 0.1)`. -/
noncomputable def calculate_decayed_importance
    (initial_importance elapsed_days : ℝ) : ℝ :=
  max (initial_importance * (0.5 : ℝ) ^ (elapsed_days / HALF_LIFE_DAYS)) 0.1

/-- The decayed importance a retrieval query attaches to a record when
`apply_decay` is set: elapsed days are `now - created_at`. -/
noncomputable def record_decayed_importance (now : ℝ) (m : MicroRec) : ℝ :=
  calculate_decayed_importance (m.importance : ℝ) (now - (m.created_at : ℝ))

/-- Descending order on creation time, used by the Firestore query
`order_by('created_at', DESCENDING)`. -/
def created_desc (a b : MicroRec) : Prop :=
  b.created_at ≤ a.created_at

instance : DecidableRel created_desc :=
  fun a b => inferInstanceAs (Decidable (b.created_at ≤ a.created_at))

/-- `MicroMemory.get_recent_micro_memories` (micro_memory.py lines
160-232) in its `apply_decay=False` mode (the one the consolidator
uses): query the non-consolidated records, newest first, fetching
`limit * 2`; the current importance of each record is its raw stored
importance; keep the records at or above `min_importance`; sort by
current importance, highest first; return the first `limit`. -/
def get_recent_micro_memories_raw (store : List MicroRec) (limit : ℕ)
    (min_importance : ℚ) : List MicroRec :=
  let fetched :=
    (((store.filter (fun m => !m.consolidated)).insertionSort
        created_desc).take (limit * 2))
  let kept := fetched.filter (fun m => min_importance ≤ m.importance)
  (kept.insertionSort
    (fun a b => b.importance ≤ a.importance)).take limit

/-- `MicroMemory.get_recent_micro_memories` (micro_memory.py lines
160-232) in its `apply_decay=True` mode (the one prompt-context assembly
uses): as above, but the current importance of each record is its
decayed importance at query time. -/
noncomputable def get_recent_micro_memories_decayed (store : List MicroRec)
    (now : ℝ) (limit : ℕ) (min_importance : ℝ) : List MicroRec :=
  let fetched :=
    (((store.filter (fun m => !m.consolidated)).insertionSort
        created_desc).take (limit * 2))
  let kept := fetched.filter
    (fun m => decide (min_importance ≤ record_decayed_importance now m))
  (kept.insertionSort
    (fun a b => record_decayed_importance now b ≤
      record_decayed_importance now a)).take limit

/-- `MicroMemory.mark_as_consolidated` applied to a document: one-way
flag flip plus the `consolidated_at` timestamp. -/
def mark_as_consolidated (now : ℚ) (m : MicroRec) : MicroRec :=
  { m with consolidated := true, consolidated_at := some now }

/-- `MicroMemory.get_unconsolidated_count`: number of stored records with
`consolidated == False`. -/
def get_unconsolidated_count (store : List MicroRec) : ℕ :=
  (store.filter (fun m => !m.consolidated)).length

/-- The per-record deletion condition of `MicroMemory.cleanup_old_memories`
(micro_memory.py lines 290-333): the query selects records with
`created_at < cutoff` (older than `days_threshold` days) and
`consolidated == True`, and the loop body deletes those whose decayed
importance is below `MIN_IMPORTANCE`. -/
def cleanup_selects (now days_threshold : ℝ) (m : MicroRec) : Prop :=
  m.consolidated = true ∧
  (m.created_at : ℝ) < now - days_threshold ∧
  calculate_decayed_importance (m.importance : ℝ) (now - (m.created_at : ℝ)) <
    MIN_IMPORTANCE

/-- The batch of records `cleanup_old_memories` deletes from a store:
the query is capped at 100 documents, and of those only the
low-importance ones are deleted. -/
noncomputable def cleanup_deleted (store : List MicroRec)
    (now days_threshold : ℝ) : List MicroRec :=
  ((store.filter (fun m =>
      decide (m.consolidated = true ∧
        (m.created_at : ℝ) < now - days_threshold))).take 100).filter
    (fun m => decide (calculate_decayed_importance (m.importance : ℝ)
      (now - (m.created_at : ℝ)) < MIN_IMPORTANCE))

/-!
## Consolidation (memory_consolidator.py)
-/

/-- `MemoryConsolidator.CONSOLIDATION_THRESHOLD`. -/
def CONSOLIDATION_THRESHOLD : ℕ := 10

/-- `MemoryConsolidator.check_consolidation_ready` (memory_consolidator.py
lines 47-58). -/
def check_consolidation_ready (store : List MicroRec) : Bool :=
  CONSOLIDATION_THRESHOLD ≤ get_unconsolidated_count store

/-- The batch `consolidate_memories` selects: up to `THRESHOLD` eligible
memories with raw (non-decayed) importance at least `min_importance=2.0`
(`apply_decay=False`). -/
def consolidation_selection (store : List MicroRec) : List MicroRec :=
  get_recent_micro_memories_raw store CONSOLIDATION_THRESHOLD 2

/-- `MemoryConsolidator.consolidate_memories` (memory_consolidator.py
lines 60-113) as a transition on the micro-memory store.  The two
fallible collaborator calls are explicit arguments: `summarize_ok` is
whether the OpenAI summarization inside `_generate_consolidation`
succeeds (on failure that helper returns `None` and consolidation
returns `None`), and `write_ok` is whether the Firestore write inside
`_create_super_memory` succeeds (on failure that helper re-raises and
the outer `except` returns `None`).  Only after both succeed is every
selected memory marked consolidated.  Returns the new store and
`Some super_memory_id` on success. -/
def consolidate_memories (store : List MicroRec)
    (mark_time : ℚ) (summarize_ok write_ok : Bool) :
    List MicroRec × Option ℕ :=
  let selected := consolidation_selection store
  if selected.length < CONSOLIDATION_THRESHOLD then (store, Option.none)
  else if !summarize_ok then (store, Option.none)
  else if !write_ok then (store, Option.none)
  else
    let ids := selected.map (fun m => m.id)
    (store.map (fun m =>
        if ids.contains m.id then mark_as_consolidated mark_time m else m),
      some 0)

/-!
## Prompt context assembly (memory_manager.py)

`MemoryManager.get_context_for_prompt` concatenates the facts text, a
"=== RECENT CONVERSATIONS ===" section when the decayed micro-memory
query returns anything, and a "=== LONG-TERM PATTERNS ===" section when
there are super memories.  The assembled text is modelled at the
granularity of these blocks; the per-line string rendering (dates,
float formatting) carries no further logic.
-/

/-- One SuperMemory document (fields used by context assembly). -/
structure SuperRec where
  id : ℕ
  created_at : ℚ
deriving DecidableEq, Repr

/-- `MemoryConsolidator.get_all_super_memories`: up to `limit` super
memories, newest first. -/
def get_all_super_memories (store : List SuperRec) (limit : ℕ) :
    List SuperRec :=
  (store.insertionSort (fun a b => b.created_at ≤ a.created_at)).take limit

/-- One block of the assembled prompt context. -/
inductive ContextBlock where
  /-- `get_facts_for_prompt` with an empty facts map: the fixed text
  "No persistent facts stored yet.". -/
  | factsPlaceholder
  /-- `get_facts_for_prompt` with a non-empty facts map: the
  "=== PERSISTENT FACTS (Never Forget) ===" section. -/
  | factsBlock (facts : FactsMap String)
  /-- The "=== RECENT CONVERSATIONS ===" section. -/
  | microBlock (memories : List MicroRec)
  /-- The "=== LONG-TERM PATTERNS ===" section. -/
  | superBlock (memories : List SuperRec)
deriving DecidableEq

/-- `MemoryManager.get_context_for_prompt` (memory_manager.py lines
417-497): facts text first (a placeholder when no facts are stored),
then up to `max_micro_memories` decayed micro memories with
`min_importance = max(2.0, relevance_threshold * 10)`, then up to 3
super memories; the micro and super sections are emitted only when
non-empty. -/
noncomputable def get_context_for_prompt (facts : FactsMap String)
    (micro_store : List MicroRec) (super_store : List SuperRec) (now : ℝ)
    (max_micro_memories : ℕ) (relevance_threshold : ℝ) :
    List ContextBlock :=
  let facts_block :=
    if facts.isEmpty then ContextBlock.factsPlaceholder
    else ContextBlock.factsBlock facts
  let recent_micros := get_recent_micro_memories_decayed micro_store now
    max_micro_memories (max 2.0 (relevance_threshold * 10))
  let super_memories := get_all_super_memories super_store 3
  [facts_block] ++
  (if recent_micros.isEmpty then [] else [.microBlock recent_micros]) ++
  (if super_memories.isEmpty then [] else [.superBlock super_memories])

/-!
## Theorems
-/

/-- **C2.** For every input on which the safety-assessment computation
itself raises an error, `assess_safety` still returns an assessment (the
exception is caught, not propagated) whose risk level is `high`, whose
intervention type is `crisis_response`, and whose
`requires_intervention` flag is true; it never falls back to a risk
level of `none`. -/
theorem c2_fail_safe_assessment (e : String) :
    (assess_safety_wrapped (.error e)).risk_level = .high ∧
    (assess_safety_wrapped (.error e)).intervention_type = .crisis_response ∧
    (assess_safety_wrapped (.error e)).requires_intervention = true ∧
    (assess_safety_wrapped (.error e)).risk_level ≠ .none := by
  refine ⟨rfl, rfl, rfl, ?_⟩
  simp [assess_safety_wrapped, fail_safe_assessment]

/-- Witness for C2 at the concrete error "boom". -/
theorem c2_fail_safe_assessment_witness :
    (assess_safety_wrapped (.error "boom")).risk_level = .high ∧
    (assess_safety_wrapped (.error "boom")).intervention_type =
      .crisis_response ∧
    (assess_safety_wrapped (.error "boom")).requires_intervention = true ∧
    (assess_safety_wrapped (.error "boom")).risk_level ≠ .none :=
  c2_fail_safe_assessment "boom"

/-- Setting a key in an association-list dict makes lookup of that key
return the new value. -/
theorem alist_get_set_self {β : Type} (m : List (String × β)) (k : String)
    (v : β) : alist_get (alist_set m k v) k = some v := by
  induction m with
  | nil => simp [alist_set, alist_get]
  | cons p rest ih =>
    by_cases h : p.1 = k
    · simp [alist_set, alist_get, h]
    · simp [alist_set, alist_get, h, ih]

/-- **C10.** After `set_fact(category, key, value, source)`, a subsequent
`get_fact(category, key)` returns that value even when the durable-store
save inside `set_fact` fails and `set_fact` returns `False`: the
in-memory facts map is updated before the save is attempted and is not
rolled back on error. -/
theorem c10_set_fact_survives_save_failure {α : Type} (facts : FactsMap α)
    (category key : String) (value : α) (source : String) (now : ℚ)
    (saveOk : Bool) :
    get_fact (set_fact facts category key value source now saveOk).1
        category key = some value ∧
    (set_fact facts category key value source now saveOk).2 = saveOk := by
  constructor
  · unfold set_fact get_fact
    simp [alist_get_set_self]
  · rfl

/-- **C7.** `decrypt(encrypt(x)) = x` for every string `x`, and for every
string `y` that was never produced by `encrypt`, `decrypt(y)` returns
`y` unchanged rather than raising. -/
theorem c7_decrypt_encrypt_roundtrip (x y : List Char)
    (hy : ∀ z : List Char, encrypt_text z ≠ y) :
    decrypt_text (encrypt_text x) = x ∧ decrypt_text y = y := by
  constructor
  · have h1 : fernet_b64_tag.isPrefixOf (fernet_b64_tag ++ x) = true := by
      rw [List.isPrefixOf_iff_prefix]
      exact List.prefix_append _ _
    simp [decrypt_text, decrypt_data, encrypt_text, encrypt_data, h1]
  · by_cases hp : fernet_b64_tag.isPrefixOf y = true
    · exfalso
      rw [List.isPrefixOf_iff_prefix] at hp
      obtain ⟨t, ht⟩ := hp
      exact hy t ht
    · simp [decrypt_text, decrypt_data, hp]

/-- Witness for C7: round trip on "hello", unchanged fallback on the
non-ciphertext "hi". -/
theorem c7_decrypt_encrypt_roundtrip_witness :
    decrypt_text (encrypt_text "hello".toList) = "hello".toList ∧
    decrypt_text "hi".toList = "hi".toList := by
  have hy : ∀ z : List Char, encrypt_text z ≠ "hi".toList := by
    intro z h
    have htag : encrypt_text z =
        'g' :: 'A' :: 'A' :: 'A' :: 'A' :: 'A' :: z := rfl
    rw [htag] at h
    injection h with h1 _
    exact absurd h1 (by decide)
  exact c7_decrypt_encrypt_roundtrip "hello".toList "hi".toList hy

/-- **C4.** If the external summarization call fails or the SuperMemory
write fails, `consolidate_memories` returns without marking any selected
micro memory as consolidated: the store (hence the unconsolidated count
and the eligibility check) is unchanged and no id is returned — marking
is all-or-nothing. -/
theorem c4_consolidation_failure_is_atomic (store : List MicroRec)
    (mark_time : ℚ) (summarize_ok write_ok : Bool)
    (h : summarize_ok = false ∨ write_ok = false) :
    consolidate_memories store mark_time summarize_ok write_ok =
      (store, Option.none) ∧
    get_unconsolidated_count
        (consolidate_memories store mark_time summarize_ok write_ok).1 =
      get_unconsolidated_count store ∧
    check_consolidation_ready
        (consolidate_memories store mark_time summarize_ok write_ok).1 =
      check_consolidation_ready store := by
  have key : consolidate_memories store mark_time summarize_ok write_ok =
      (store, Option.none) := by
    unfold consolidate_memories
    rcases h with h | h <;> subst h <;> split_ifs <;> simp_all
  refine ⟨key, ?_, ?_⟩ <;> rw [key]

/-- Witness for C4: a failing summarization call on the empty store. -/
theorem c4_consolidation_failure_is_atomic_witness :
    consolidate_memories [] 0 false true = ([], Option.none) ∧
    get_unconsolidated_count (consolidate_memories [] 0 false true).1 =
      get_unconsolidated_count [] ∧
    check_consolidation_ready (consolidate_memories [] 0 false true).1 =
      check_consolidation_ready [] :=
  c4_consolidation_failure_is_atomic [] 0 false true (Or.inl rfl)

/-- The single-step escalation of phase 2 never lowers a risk level. -/
theorem escalate_once_le (l : RiskLevel) :
    l.toNat ≤ (if l = .medium then RiskLevel.high
      else if l = .high then RiskLevel.critical else l).toNat := by
  cases l <;> decide

/-- One phase-2 iteration never lowers the risk level. -/
theorem phase2_step_level_le (text : List Char) (acc : AssessSt × Bool)
    (cat : String × List String) :
    acc.1.level.toNat ≤ (phase2_step text acc cat).1.level.toNat := by
  unfold phase2_step
  split
  · exact escalate_once_le acc.1.level
  · exact le_refl _

/-- Folding phase-2 steps over any category list never lowers the risk
level. -/
theorem foldl_phase2_step_level_le (text : List Char)
    (cats : List (String × List String)) (acc : AssessSt × Bool) :
    acc.1.level.toNat ≤
      (cats.foldl (phase2_step text) acc).1.level.toNat := by
  induction cats generalizing acc with
  | nil => exact le_refl _
  | cons c cs ih =>
    exact le_trans (phase2_step_level_le text acc c) (ih _)

/-- Phase 2 never lowers the risk level established by phase 1. -/
theorem phase2_level_le (text : List Char) (st : AssessSt) :
    st.level.toNat ≤ (phase2 text st).1.level.toNat :=
  foldl_phase2_step_level_le text risk_multipliers (st, false)

/-- Phase 3 never lowers the risk level. -/
theorem phase3_level_le (intensity : ℚ) (st : AssessSt) :
    st.level.toNat ≤ (phase3 intensity st).level.toNat := by
  cases hl : st.level <;>
    simp only [phase3, hl] <;>
    (try simp [RiskLevel.toNat]) <;>
    (try split_ifs) <;>
    simp_all [RiskLevel.toNat]

/-- Phase 4 never lowers the risk level. -/
theorem phase4_level_le (history : List (Option String)) (st : AssessSt) :
    st.level.toNat ≤ (phase4 history st).level.toNat := by
  cases hl : st.level <;>
    simp only [phase4, hl] <;>
    (try simp [RiskLevel.toNat]) <;>
    (try split_ifs) <;>
    simp_all [RiskLevel.toNat]

/-- One phase-2 iteration keeps a critical level critical. -/
theorem phase2_step_critical (text : List Char) (acc : AssessSt × Bool)
    (cat : String × List String) (h : acc.1.level = .critical) :
    (phase2_step text acc cat).1.level = .critical := by
  unfold phase2_step
  split <;> simp [h]

/-- Folding phase-2 steps keeps a critical level critical. -/
theorem foldl_phase2_step_critical (text : List Char)
    (cats : List (String × List String)) (acc : AssessSt × Bool)
    (h : acc.1.level = .critical) :
    (cats.foldl (phase2_step text) acc).1.level = .critical := by
  induction cats generalizing acc with
  | nil => exact h
  | cons c cs ih => exact ih _ (phase2_step_critical text acc c h)

/-- Phase 3 keeps a critical level critical. -/
theorem phase3_critical (intensity : ℚ) (st : AssessSt)
    (h : st.level = .critical) :
    (phase3 intensity st).level = .critical := by
  simp only [phase3, h]
  (try simp) <;> (try split_ifs) <;> simp_all

/-- Phase 4 keeps a critical level critical. -/
theorem phase4_critical (history : List (Option String)) (st : AssessSt)
    (h : st.level = .critical) :
    (phase4 history st).level = .critical := by
  simp only [phase4, h]
  (try simp) <;> (try split_ifs) <;> simp_all

/-- If some critical-tier keyword occurs in the text, phase 1 sets the
level to critical. -/
theorem phase1_critical_of_kw (text : List Char)
    (h : ∃ kw ∈ critical_keywords, pyIn kw text = true) :
    (phase1 text).level = .critical := by
  obtain ⟨kw, hmem, hin⟩ := h
  have hsome : (critical_keywords.find? (fun kw => pyIn kw text)).isSome :=
    List.find?_isSome.mpr ⟨kw, hmem, hin⟩
  obtain ⟨k, hk⟩ := Option.isSome_iff_exists.mp hsome
  simp [phase1, hk]

/-- Substring containment is preserved by lowercasing both sides. -/
theorem infix_map_toLower {kw msg : List Char} (h : kw <:+: msg) :
    kw.map Char.toLower <:+: msg.map Char.toLower := by
  obtain ⟨s, t, rfl⟩ := h
  exact ⟨s.map Char.toLower, t.map Char.toLower, by simp⟩

/-- Every critical-tier keyword is already lowercase, so lowercasing the
message preserves its occurrence. -/
theorem critical_keywords_lower :
    ∀ kw ∈ critical_keywords, kw.toList.map Char.toLower = kw.toList := by
  decide

/-- The final risk level of `assess_safety` is the phase-4 level. -/
theorem assess_safety_risk_level (message : List Char) (intensity : ℚ)
    (history : List (Option String)) :
    (assess_safety message intensity history).risk_level =
      (phase4 history (phase3 intensity
        (phase2 (message.map Char.toLower)
          (phase1 (message.map Char.toLower))).1)).level := rfl

/-- **C1.** The safety assessment's risk level is monotone across the
four evaluation phases — each phase may only raise the level established
by an earlier phase, never lower it — and any message containing a
critical-tier keyword yields a final risk level of `critical`,
regardless of which medium-tier keywords or multipliers it also
matches. -/
theorem c1_risk_level_monotone_and_critical (message : List Char)
    (intensity : ℚ) (history : List (Option String)) :
    ((phase1 (message.map Char.toLower)).level.toNat ≤
        (phase2 (message.map Char.toLower)
          (phase1 (message.map Char.toLower))).1.level.toNat ∧
      (phase2 (message.map Char.toLower)
          (phase1 (message.map Char.toLower))).1.level.toNat ≤
        (phase3 intensity (phase2 (message.map Char.toLower)
          (phase1 (message.map Char.toLower))).1).level.toNat ∧
      (phase3 intensity (phase2 (message.map Char.toLower)
          (phase1 (message.map Char.toLower))).1).level.toNat ≤
        (phase4 history (phase3 intensity
          (phase2 (message.map Char.toLower)
            (phase1 (message.map Char.toLower))).1)).level.toNat) ∧
    ((∃ kw ∈ critical_keywords, kw.toList <:+: message) →
      (assess_safety message intensity history).risk_level = .critical) := by
  refine ⟨⟨phase2_level_le _ _, phase3_level_le _ _, phase4_level_le _ _⟩, ?_⟩
  rintro ⟨kw, hmem, hinf⟩
  have hlow : kw.toList <:+: message.map Char.toLower := by
    have h := infix_map_toLower hinf
    rwa [critical_keywords_lower kw hmem] at h
  have h1 : (phase1 (message.map Char.toLower)).level = .critical :=
    phase1_critical_of_kw _ ⟨kw, hmem, by simpa [pyIn] using hlow⟩
  rw [assess_safety_risk_level]
  exact phase4_critical _ _ (phase3_critical _ _
    (foldl_phase2_step_critical _ _ _ h1))

/-- Witness for C1 at the spec scenario "I want to end my life tonight"
(lowercased), which contains the critical keyword "end my life". -/
theorem c1_risk_level_monotone_and_critical_witness :
    (∃ kw ∈ critical_keywords,
      kw.toList <:+: "i want to end my life tonight".toList) ∧
    (assess_safety "i want to end my life tonight".toList 0 []).risk_level =
      .critical := by
  have hex : ∃ kw ∈ critical_keywords,
      kw.toList <:+: "i want to end my life tonight".toList :=
    ⟨"end my life", by decide,
      ⟨"i want to ".toList, " tonight".toList, by decide⟩⟩
  exact ⟨hex,
    (c1_risk_level_monotone_and_critical
      "i want to end my life tonight".toList 0 []).2 hex⟩

/-- **C3.** For all initial importance `i0 ≥ 0` and elapsed days
`0 ≤ d1 ≤ d2`, the decayed importance of a micro memory equals
`max(i0 * 0.5^(days/14), 0.1)`, and for fixed `i0` it is non-increasing
in the elapsed days. -/
theorem c3_decay_formula_and_nonincreasing (i0 d1 d2 : ℝ) (hi : 0 ≤ i0)
    (hd1 : 0 ≤ d1) (hd : d1 ≤ d2) :
    calculate_decayed_importance i0 d1 =
      max (i0 * (0.5 : ℝ) ^ (d1 / 14)) 0.1 ∧
    calculate_decayed_importance i0 d2 ≤ calculate_decayed_importance i0 d1 := by
  constructor
  · rfl
  · unfold calculate_decayed_importance
    apply max_le_max _ (le_refl (0.1 : ℝ))
    apply mul_le_mul_of_nonneg_left _ hi
    apply Real.rpow_le_rpow_of_exponent_ge (by norm_num) (by norm_num)
    unfold HALF_LIFE_DAYS
    exact (div_le_div_right (by norm_num)).mpr hd

/-- Witness for C3 at `i0 = 5`, `d1 = 0`, `d2 = 14`. -/
theorem c3_decay_formula_and_nonincreasing_witness :
    (0 : ℝ) ≤ 5 ∧ (0 : ℝ) ≤ 0 ∧ (0 : ℝ) ≤ 14 ∧
    calculate_decayed_importance 5 0 =
      max ((5 : ℝ) * (0.5 : ℝ) ^ ((0 : ℝ) / 14)) 0.1 ∧
    calculate_decayed_importance 5 14 ≤ calculate_decayed_importance 5 0 :=
  ⟨by norm_num, le_refl 0, by norm_num,
    (c3_decay_formula_and_nonincreasing 5 0 14 (by norm_num) (le_refl 0)
      (by norm_num)).1,
    (c3_decay_formula_and_nonincreasing 5 0 14 (by norm_num) (le_refl 0)
      (by norm_num)).2⟩

/-- A memory of initial importance 5 has hit the 0.1 decay floor after
90 days: `5 * 0.5^(90/14) < 0.1`, so the decayed importance is exactly
the floor. -/
theorem decayed_importance_5_after_90_days :
    calculate_decayed_importance 5 90 = 0.1 := by
  unfold calculate_decayed_importance HALF_LIFE_DAYS
  have h6 : (0.5 : ℝ) ^ ((90 : ℝ) / 14) ≤ (0.5 : ℝ) ^ ((6 : ℕ) : ℝ) :=
    Real.rpow_le_rpow_of_exponent_ge (by norm_num) (by norm_num)
      (by norm_num)
  rw [Real.rpow_natCast] at h6
  have hle : (5 : ℝ) * (0.5 : ℝ) ^ ((90 : ℝ) / 14) ≤ 0.1 := by
    calc (5 : ℝ) * (0.5 : ℝ) ^ ((90 : ℝ) / 14)
        ≤ 5 * (0.5 : ℝ) ^ (6 : ℕ) :=
          mul_le_mul_of_nonneg_left h6 (by norm_num)
      _ ≤ 0.1 := by norm_num
  exact max_eq_right hle

/-- The sample record for C8: consolidated, importance 5, 90 days old.
Its decayed importance sits exactly on the 0.1 floor, which is below
`MIN_IMPORTANCE = 1.0`, so a 60-day cleanup selects it for deletion. -/
theorem cleanup_selects_sample :
    cleanup_selects 90 60
      { id := 0, importance := 5, created_at := 0, consolidated := true,
        consolidated_at := Option.none } ∧
    calculate_decayed_importance
      (((5 : ℚ) : ℝ)) ((90 : ℝ) - ((0 : ℚ) : ℝ)) = 0.1 := by
  have hval : calculate_decayed_importance (((5 : ℚ) : ℝ))
      ((90 : ℝ) - ((0 : ℚ) : ℝ)) = 0.1 := by
    push_cast
    simpa using decayed_importance_5_after_90_days
  refine ⟨⟨rfl, by norm_num, ?_⟩, hval⟩
  rw [hval]
  unfold MIN_IMPORTANCE
  norm_num

/-- **C8 counterexample.** A consolidated micro memory of initial
importance 5 created 90 days ago satisfies the deletion condition of
`cleanup_old_memories` under the default 60-day threshold, yet its
decayed importance equals the 0.1 decay floor, which is *not* below 0.1:
the code deletes with `decayed < MIN_IMPORTANCE = 1.0`, not
`decayed < 0.1` as the claim states (a condition the `max(., 0.1)` floor
makes unsatisfiable). -/
theorem c8_cleanup_counterexample :
    cleanup_selects 90 60
      { id := 0, importance := 5, created_at := 0, consolidated := true,
        consolidated_at := Option.none } ∧
    ¬ calculate_decayed_importance
        (((5 : ℚ) : ℝ)) ((90 : ℝ) - ((0 : ℚ) : ℝ)) < 0.1 := by
  refine ⟨cleanup_selects_sample.1, ?_⟩
  rw [cleanup_selects_sample.2]
  norm_num

/-- **C8 (amended).** `cleanup_old_memories(days_threshold)` deletes a
micro memory (within its 100-document query batch) if and only if it is
`consolidated=true`, older than `days_threshold` days, and its decayed
importance has fallen below `MIN_IMPORTANCE = 1.0` (the spec's 0.1 is
the decay floor, below which the decayed importance can never fall); it
never deletes a non-consolidated (active) micro memory regardless of its
age or importance. -/
theorem c8_cleanup_deletion_characterisation (store : List MicroRec)
    (now days_threshold : ℝ) (m : MicroRec) :
    (m ∈ cleanup_deleted store now days_threshold →
      cleanup_selects now days_threshold m) ∧
    (m.consolidated = false → m ∉ cleanup_deleted store now days_threshold) ∧
    (store.length ≤ 100 →
      (m ∈ cleanup_deleted store now days_threshold ↔
        m ∈ store ∧ cleanup_selects now days_threshold m)) ∧
    MIN_IMPORTANCE = 1 := by
  have hsel : ∀ x : MicroRec,
      (decide (x.consolidated = true ∧
        (x.created_at : ℝ) < now - days_threshold) = true ∧
       decide (calculate_decayed_importance (x.importance : ℝ)
        (now - (x.created_at : ℝ)) < MIN_IMPORTANCE) = true) ↔
      cleanup_selects now days_threshold x := by
    intro x
    simp only [decide_eq_true_eq, cleanup_selects]
    tauto
  have hfwd : m ∈ cleanup_deleted store now days_threshold →
      m ∈ store ∧ cleanup_selects now days_threshold m := by
    intro hm
    unfold cleanup_deleted at hm
    rw [List.mem_filter] at hm
    obtain ⟨htake, hB⟩ := hm
    have hfil := List.mem_of_mem_take htake
    rw [List.mem_filter] at hfil
    exact ⟨hfil.1, (hsel m).mp ⟨hfil.2, hB⟩⟩
  refine ⟨fun hm => (hfwd hm).2, ?_, ?_, by norm_num [MIN_IMPORTANCE]⟩
  · intro hcons hm
    have := ((hfwd hm).2).1
    rw [hcons] at this
    exact Bool.false_ne_true this
  · intro hlen
    constructor
    · exact hfwd
    · rintro ⟨hmem, hselm⟩
      unfold cleanup_deleted
      have hA : decide (m.consolidated = true ∧
          (m.created_at : ℝ) < now - days_threshold) = true := by
        rw [decide_eq_true_eq]
        exact ⟨hselm.1, hselm.2.1⟩
      have hB : decide (calculate_decayed_importance (m.importance : ℝ)
          (now - (m.created_at : ℝ)) < MIN_IMPORTANCE) = true := by
        rw [decide_eq_true_eq]
        exact hselm.2.2
      rw [List.mem_filter]
      refine ⟨?_, hB⟩
      have hfl : (store.filter (fun x =>
          decide (x.consolidated = true ∧
            (x.created_at : ℝ) < now - days_threshold))).length ≤ 100 :=
        le_trans (List.length_filter_le _ _) hlen
      rw [List.take_of_length_le hfl, List.mem_filter]
      exact ⟨hmem, hA⟩

/-- Witness for C8: the counterexample memory is in fact deleted by a
cleanup run over a singleton store. -/
theorem c8_cleanup_deletion_characterisation_witness :
    ({ id := 0, importance := 5, created_at := 0, consolidated := true,
        consolidated_at := Option.none } : MicroRec) ∈
      cleanup_deleted
        [{ id := 0, importance := 5, created_at := 0, consolidated := true,
            consolidated_at := Option.none }] 90 60 := by
  have h := (c8_cleanup_deletion_characterisation
    [{ id := 0, importance := 5, created_at := 0, consolidated := true,
        consolidated_at := Option.none }] 90 60
    { id := 0, importance := 5, created_at := 0, consolidated := true,
        consolidated_at := Option.none }).2.2.1 (by norm_num)
  exact h.mpr ⟨List.mem_singleton_self _, cleanup_selects_sample.1⟩

/-- **C9 counterexample.** With fewer than 3 recorded snapshots the
summary (and with it any trend classification) is empty — not
"emerging" as the claim states; and with 3 or 4 snapshots the trend is
"emerging" — the mean comparison the claim describes for three or more
snapshots does not happen (here the last three intensities average 0.9
against earlier 0.1, which any ±0.2-band comparison would classify as
"intensifying"). -/
theorem c9_trend_counterexample :
    get_emotional_summary
      [⟨"sad", 0.5, Option.none⟩, ⟨"sad", 0.5, Option.none⟩] =
      Option.none ∧
    get_emotional_summary
      [⟨"sad", 0.1, Option.none⟩, ⟨"sad", 0.9, Option.none⟩,
       ⟨"sad", 0.9, Option.none⟩, ⟨"sad", 0.9, Option.none⟩] =
      some (0.7, "emerging") := by
  constructor
  · decide
  · simp [get_emotional_summary, emotional_trend, lastN]
    norm_num

/-- **C9 (amended).** `get_emotional_summary` returns no summary (hence
no trend) with fewer than 3 recorded snapshots; with 3 or 4 snapshots
the trend is "emerging"; only from 5 snapshots on does it compare the
mean of the last 3 window intensities against `sum(window[-6:-3]) / 3`
with a ±0.2 band — at exactly 5 snapshots that slice holds only 2
elements (still divided by 3), and from 6 snapshots on it is a true
3-element mean. -/
theorem c9_trend_characterisation (h : List EmotionSnap) :
    (h.length < 3 → get_emotional_summary h = Option.none) ∧
    (3 ≤ h.length → h.length < 5 →
      (get_emotional_summary h).map (fun p => p.2) = some "emerging") ∧
    (h.length = 5 →
      ((((lastN 10 h).map (fun e => e.intensity)).take
          (((lastN 10 h).map (fun e => e.intensity)).length - 3)).drop
        (((lastN 10 h).map (fun e => e.intensity)).length - 6)).length = 2) ∧
    (6 ≤ h.length →
      ((((lastN 10 h).map (fun e => e.intensity)).take
          (((lastN 10 h).map (fun e => e.intensity)).length - 3)).drop
        (((lastN 10 h).map (fun e => e.intensity)).length - 6)).length = 3 ∧
      (get_emotional_summary h).map (fun p => p.2) =
        some (emotional_trend ((lastN 10 h).map (fun e => e.intensity)))) := by
  have hL : ((lastN 10 h).map (fun e => e.intensity)).length =
      h.length - (h.length - 10) := by
    simp [lastN]
  refine ⟨?_, ?_, ?_, ?_⟩
  · intro hlt
    unfold get_emotional_summary
    rw [if_pos hlt]
  · intro h3 h5
    have hnot : ¬ 5 ≤ ((lastN 10 h).map (fun e => e.intensity)).length := by
      omega
    unfold get_emotional_summary
    rw [if_neg (by omega)]
    simp [emotional_trend, hnot]
    intro habs
    have hml : (lastN 10 h).length = h.length - (h.length - 10) := by
      simp [lastN]
    omega
  · intro h5
    simp only [List.length_drop, List.length_take, hL]
    omega
  · intro h6
    constructor
    · simp only [List.length_drop, List.length_take, hL]
      omega
    · unfold get_emotional_summary
      rw [if_neg (by omega)]
      simp

/-- Witness for C9: the amended characterisation evaluated on concrete
histories of lengths 1, 4, 5 and 6. -/
theorem c9_trend_characterisation_witness :
    get_emotional_summary [⟨"sad", 0.5, Option.none⟩] = Option.none ∧
    (get_emotional_summary
      [⟨"sad", 0.1, Option.none⟩, ⟨"sad", 0.9, Option.none⟩,
       ⟨"sad", 0.9, Option.none⟩, ⟨"sad", 0.9, Option.none⟩]).map
      (fun p => p.2) = some "emerging" ∧
    ((((lastN 10 ([⟨"sad", 0.5, Option.none⟩, ⟨"sad", 0.5, Option.none⟩,
        ⟨"sad", 0.5, Option.none⟩, ⟨"sad", 0.5, Option.none⟩,
        ⟨"sad", 0.5, Option.none⟩] : List EmotionSnap)).map
          (fun e => e.intensity)).take
        (((lastN 10 ([⟨"sad", 0.5, Option.none⟩, ⟨"sad", 0.5, Option.none⟩,
          ⟨"sad", 0.5, Option.none⟩, ⟨"sad", 0.5, Option.none⟩,
          ⟨"sad", 0.5, Option.none⟩] : List EmotionSnap)).map
            (fun e => e.intensity)).length - 3)).drop
        (((lastN 10 ([⟨"sad", 0.5, Option.none⟩, ⟨"sad", 0.5, Option.none⟩,
          ⟨"sad", 0.5, Option.none⟩, ⟨"sad", 0.5, Option.none⟩,
          ⟨"sad", 0.5, Option.none⟩] : List EmotionSnap)).map
            (fun e => e.intensity)).length - 6)).length = 2 := by
  refine ⟨?_, ?_, ?_⟩
  · exact (c9_trend_characterisation [⟨"sad", 0.5, Option.none⟩]).1
      (by norm_num)
  · exact (c9_trend_characterisation _).2.1 (by norm_num) (by norm_num)
  · exact (c9_trend_characterisation _).2.2.1 rfl

/-- Soundness of the raw retrieval query: every returned record is a
stored, non-consolidated record whose raw importance meets the
threshold. -/
theorem mem_get_recent_raw (store : List MicroRec) (limit : ℕ)
    (minImp : ℚ) (m : MicroRec)
    (hm : m ∈ get_recent_micro_memories_raw store limit minImp) :
    m ∈ store ∧ m.consolidated = false ∧ minImp ≤ m.importance := by
  unfold get_recent_micro_memories_raw at hm
  have h1 := List.mem_of_mem_take hm
  rw [List.mem_insertionSort, List.mem_filter] at h1
  obtain ⟨h2, himp⟩ := h1
  have h3 := List.mem_of_mem_take h2
  rw [List.mem_insertionSort, List.mem_filter] at h3
  obtain ⟨hmem, hcons⟩ := h3
  refine ⟨hmem, by simpa using hcons, by simpa using himp⟩

/-- The raw retrieval query returns at most `limit` records. -/
theorem get_recent_raw_length_le (store : List MicroRec) (limit : ℕ)
    (minImp : ℚ) :
    (get_recent_micro_memories_raw store limit minImp).length ≤ limit := by
  unfold get_recent_micro_memories_raw
  exact List.length_take_le _ _

/-- The raw retrieval query returns no more records than there are
non-consolidated records in the store. -/
theorem get_recent_raw_length_le_unconsolidated (store : List MicroRec)
    (limit : ℕ) (minImp : ℚ) :
    (get_recent_micro_memories_raw store limit minImp).length ≤
      get_unconsolidated_count store := by
  unfold get_recent_micro_memories_raw get_unconsolidated_count
  have h3 := List.length_filter_le
    (fun m => decide (minImp ≤ m.importance))
    (((store.filter (fun m => !m.consolidated)).insertionSort
        created_desc).take (limit * 2))
  have h4 := List.length_take_le (limit * 2)
    ((store.filter (fun m => !m.consolidated)).insertionSort created_desc)
  simp only [List.length_take, List.length_insertionSort] at h3 h4 ⊢
  omega

/-- **C5.** Consolidation readiness holds if and only if the count of
non-consolidated micro memories is at least 10, and a successful
consolidation run selects exactly 10 stored, non-consolidated memories
of raw importance at least 2.0 and maps the store so that exactly the
selected batch is marked `consolidated=true` (with a `consolidated_at`
stamp) while every other record is carried over unchanged. -/
theorem c5_threshold_iff_and_exact_batch (store : List MicroRec)
    (mark_time : ℚ) (summarize_ok write_ok : Bool) :
    (check_consolidation_ready store = true ↔
      10 ≤ get_unconsolidated_count store) ∧
    ((consolidate_memories store mark_time summarize_ok write_ok).2.isSome =
        true →
      (consolidation_selection store).length = 10 ∧
      (∀ m ∈ consolidation_selection store,
        m ∈ store ∧ m.consolidated = false ∧ (2 : ℚ) ≤ m.importance) ∧
      10 ≤ get_unconsolidated_count store ∧
      (consolidate_memories store mark_time summarize_ok write_ok).1 =
        store.map (fun m =>
          if ((consolidation_selection store).map (fun x => x.id)).contains
              m.id then mark_as_consolidated mark_time m else m) ∧
      (∀ m ∈ store,
        ((consolidation_selection store).map (fun x => x.id)).contains m.id =
          false →
        m ∈ (consolidate_memories store mark_time summarize_ok write_ok).1) ∧
      (∀ m ∈ consolidation_selection store,
        mark_as_consolidated mark_time m ∈
          (consolidate_memories store mark_time summarize_ok write_ok).1)) := by
  constructor
  · simp [check_consolidation_ready, CONSOLIDATION_THRESHOLD]
  · intro hs
    have hlen10 : ¬ (consolidation_selection store).length <
        CONSOLIDATION_THRESHOLD := by
      intro hlt
      have hval : consolidate_memories store mark_time summarize_ok write_ok =
          (store, Option.none) := by
        unfold consolidate_memories
        rw [if_pos hlt]
      rw [hval] at hs
      simp at hs
    have hsOk : summarize_ok = true := by
      by_contra hns
      have hns' : summarize_ok = false := by
        revert hns; cases summarize_ok <;> simp
      have hval : consolidate_memories store mark_time summarize_ok write_ok =
          (store, Option.none) := by
        unfold consolidate_memories
        rw [if_neg hlen10, hns']
        simp
      rw [hval] at hs
      simp at hs
    have hwOk : write_ok = true := by
      by_contra hnw
      have hnw' : write_ok = false := by
        revert hnw; cases write_ok <;> simp
      have hval : consolidate_memories store mark_time summarize_ok write_ok =
          (store, Option.none) := by
        unfold consolidate_memories
        rw [if_neg hlen10, hnw']
        simp
      rw [hval] at hs
      simp at hs
    have hsel_le : (consolidation_selection store).length ≤ 10 :=
      get_recent_raw_length_le store CONSOLIDATION_THRESHOLD 2
    have hlen : (consolidation_selection store).length = 10 := by
      unfold CONSOLIDATION_THRESHOLD at hlen10
      omega
    have hval : consolidate_memories store mark_time summarize_ok write_ok =
        (store.map (fun m =>
          if ((consolidation_selection store).map (fun x => x.id)).contains
              m.id then mark_as_consolidated mark_time m else m),
          some 0) := by
      unfold consolidate_memories
      rw [if_neg hlen10, hsOk, hwOk]
      simp
    have hmem : ∀ m ∈ consolidation_selection store,
        m ∈ store ∧ m.consolidated = false ∧ (2 : ℚ) ≤ m.importance :=
      fun m hm => mem_get_recent_raw store CONSOLIDATION_THRESHOLD 2 m hm
    refine ⟨hlen, hmem, ?_, ?_, ?_, ?_⟩
    · have := get_recent_raw_length_le_unconsolidated store
        CONSOLIDATION_THRESHOLD 2
      unfold consolidation_selection at hlen
      omega
    · rw [hval]
    · intro m hm hcont
      rw [hval]
      have : (fun m =>
          if ((consolidation_selection store).map (fun x => x.id)).contains
              m.id then mark_as_consolidated mark_time m else m) m = m := by
        have hccond : ¬ (((consolidation_selection store).map
            (fun x => x.id)).contains m.id = true) := by
          rw [hcont]
          simp
        exact if_neg hccond
      rw [← this]
      exact List.mem_map_of_mem _ hm
    · intro m hm
      rw [hval]
      have hid : ((consolidation_selection store).map
          (fun x => x.id)).contains m.id = true := by
        have : m.id ∈ (consolidation_selection store).map (fun x => x.id) :=
          List.mem_map_of_mem _ hm
        simpa [List.elem_iff] using this
      have : (fun m =>
          if ((consolidation_selection store).map (fun x => x.id)).contains
              m.id then mark_as_consolidated mark_time m else m) m =
          mark_as_consolidated mark_time m := by
        exact if_pos hid
      rw [← this]
      exact List.mem_map_of_mem _ (hmem m hm).1

/-- Witness for C5: a store of ten unconsolidated memories of importance
5 consolidates successfully; exactly that batch is selected. -/
theorem c5_threshold_iff_and_exact_batch_witness :
    (consolidation_selection
      [⟨0, 5, 0, false, Option.none⟩, ⟨1, 5, 1, false, Option.none⟩,
       ⟨2, 5, 2, false, Option.none⟩, ⟨3, 5, 3, false, Option.none⟩,
       ⟨4, 5, 4, false, Option.none⟩, ⟨5, 5, 5, false, Option.none⟩,
       ⟨6, 5, 6, false, Option.none⟩, ⟨7, 5, 7, false, Option.none⟩,
       ⟨8, 5, 8, false, Option.none⟩,
       ⟨9, 5, 9, false, Option.none⟩]).length = 10 ∧
    10 ≤ get_unconsolidated_count
      [⟨0, 5, 0, false, Option.none⟩, ⟨1, 5, 1, false, Option.none⟩,
       ⟨2, 5, 2, false, Option.none⟩, ⟨3, 5, 3, false, Option.none⟩,
       ⟨4, 5, 4, false, Option.none⟩, ⟨5, 5, 5, false, Option.none⟩,
       ⟨6, 5, 6, false, Option.none⟩, ⟨7, 5, 7, false, Option.none⟩,
       ⟨8, 5, 8, false, Option.none⟩, ⟨9, 5, 9, false, Option.none⟩] := by
  have h := (c5_threshold_iff_and_exact_batch
    [⟨0, 5, 0, false, Option.none⟩, ⟨1, 5, 1, false, Option.none⟩,
     ⟨2, 5, 2, false, Option.none⟩, ⟨3, 5, 3, false, Option.none⟩,
     ⟨4, 5, 4, false, Option.none⟩, ⟨5, 5, 5, false, Option.none⟩,
     ⟨6, 5, 6, false, Option.none⟩, ⟨7, 5, 7, false, Option.none⟩,
     ⟨8, 5, 8, false, Option.none⟩, ⟨9, 5, 9, false, Option.none⟩]
    0 true true).2 (by decide)
  exact ⟨h.1, h.2.2.1⟩

/-- Soundness of the decayed retrieval query: every returned record is a
stored, non-consolidated record whose decayed importance meets the
threshold. -/
theorem mem_get_recent_decayed (store : List MicroRec) (now : ℝ)
    (limit : ℕ) (minImp : ℝ) (m : MicroRec)
    (hm : m ∈ get_recent_micro_memories_decayed store now limit minImp) :
    m ∈ store ∧ m.consolidated = false ∧
      minImp ≤ record_decayed_importance now m := by
  unfold get_recent_micro_memories_decayed at hm
  have h1 := List.mem_of_mem_take hm
  rw [List.mem_insertionSort, List.mem_filter] at h1
  obtain ⟨h2, himp⟩ := h1
  have h3 := List.mem_of_mem_take h2
  rw [List.mem_insertionSort, List.mem_filter] at h3
  obtain ⟨hmem, hcons⟩ := h3
  refine ⟨hmem, by simpa using hcons, by simpa using himp⟩

/-- **C6 counterexample.** With no stored facts, micro memories or super
memories, the assembled context is not empty: the empty facts tier is
not omitted but replaced by the fixed placeholder text
"No persistent facts stored yet." (`get_facts_for_prompt`,
persistent_facts.py), contradicting the claim that any empty tier is
omitted from the returned text. -/
theorem c6_context_counterexample :
    get_context_for_prompt [] [] [] 0 5 0 = [ContextBlock.factsPlaceholder] ∧
    get_context_for_prompt [] [] [] 0 5 0 ≠ [] := by
  have hmicro : get_recent_micro_memories_decayed [] 0 5
      (max 2.0 ((0 : ℝ) * 10)) = [] := by
    unfold get_recent_micro_memories_decayed
    simp [List.insertionSort]
  have hsuper : get_all_super_memories [] 3 = [] := by
    unfold get_all_super_memories
    simp [List.insertionSort]
  constructor
  · unfold get_context_for_prompt
    rw [hmicro, hsuper]
    simp
  · unfold get_context_for_prompt
    rw [hmicro, hsuper]
    simp

/-- **C6 (amended).** For every `maxMicro` and `relevanceThreshold` in
`[0,1]`, the micro-memory tier of the assembled prompt context contains
at most `maxMicro` non-consolidated micro memories, all with decayed
importance at least `relevanceThreshold * 10` (the effective cutoff is
`max(2.0, relevanceThreshold * 10)`); empty micro and super tiers are
omitted from the returned context without error, while an empty facts
tier yields the fixed placeholder text instead of being omitted. -/
theorem c6_context_assembly (facts : FactsMap String)
    (micro_store : List MicroRec) (super_store : List SuperRec) (now : ℝ)
    (maxMicro : ℕ) (rt : ℝ) (h0 : 0 ≤ rt) (h1 : rt ≤ 1) :
    (get_recent_micro_memories_decayed micro_store now maxMicro
        (max 2.0 (rt * 10))).length ≤ maxMicro ∧
    (∀ m ∈ get_recent_micro_memories_decayed micro_store now maxMicro
        (max 2.0 (rt * 10)),
      m.consolidated = false ∧
      rt * 10 ≤ record_decayed_importance now m) ∧
    (ContextBlock.microBlock (get_recent_micro_memories_decayed micro_store
        now maxMicro (max 2.0 (rt * 10))) ∈
        get_context_for_prompt facts micro_store super_store now maxMicro rt ↔
      get_recent_micro_memories_decayed micro_store now maxMicro
        (max 2.0 (rt * 10)) ≠ []) ∧
    (ContextBlock.superBlock (get_all_super_memories super_store 3) ∈
        get_context_for_prompt facts micro_store super_store now maxMicro rt ↔
      get_all_super_memories super_store 3 ≠ []) ∧
    (ContextBlock.factsPlaceholder ∈
        get_context_for_prompt facts micro_store super_store now maxMicro rt ↔
      facts = []) := by
  refine ⟨?_, ?_, ?_, ?_, ?_⟩
  · unfold get_recent_micro_memories_decayed
    exact List.length_take_le _ _
  · intro m hm
    obtain ⟨_, hcons, himp⟩ := mem_get_recent_decayed micro_store now
      maxMicro (max 2.0 (rt * 10)) m hm
    refine ⟨hcons, le_trans ?_ himp⟩
    exact le_max_right _ _
  · unfold get_context_for_prompt
    by_cases hmi : get_recent_micro_memories_decayed micro_store now maxMicro
        (max 2.0 (rt * 10)) = [] <;>
      by_cases hsu : get_all_super_memories super_store 3 = [] <;>
      by_cases hfa : facts = (([] : FactsMap String)) <;>
      simp [hmi, hsu, hfa, List.isEmpty_iff]
  · unfold get_context_for_prompt
    by_cases hmi : get_recent_micro_memories_decayed micro_store now maxMicro
        (max 2.0 (rt * 10)) = [] <;>
      by_cases hsu : get_all_super_memories super_store 3 = [] <;>
      by_cases hfa : facts = (([] : FactsMap String)) <;>
      simp [hmi, hsu, hfa, List.isEmpty_iff]
  · unfold get_context_for_prompt
    by_cases hmi : get_recent_micro_memories_decayed micro_store now maxMicro
        (max 2.0 (rt * 10)) = [] <;>
      by_cases hsu : get_all_super_memories super_store 3 = [] <;>
      by_cases hfa : facts = (([] : FactsMap String)) <;>
      simp [hmi, hsu, hfa, List.isEmpty_iff]

/-- Witness for C6 at `maxMicro = 5` and `relevanceThreshold = 0` on
empty stores. -/
theorem c6_context_assembly_witness :
    (0 : ℝ) ≤ 0 ∧ (0 : ℝ) ≤ 1 ∧
    (get_recent_micro_memories_decayed [] 0 5
      (max 2.0 ((0 : ℝ) * 10))).length ≤ 5 ∧
    (ContextBlock.factsPlaceholder ∈
        get_context_for_prompt [] [] [] 0 5 0 ↔
      ([] : FactsMap String) = []) := by
  have h := c6_context_assembly [] [] [] 0 5 0 (le_refl 0) (by norm_num)
  exact ⟨le_refl 0, by norm_num, h.1, h.2.2.2.2⟩
